import Mathlib

/-!
Shallow embedding of the fargate-testing repository's sandbox-orchestration
core: the simulated Fargate activities (`fargate_activities.py`), the
orchestration workflow (`fargate_workflow.py`), and the sandbox task entry
point (`example_fargate_task/fargate_task.py`).

Nondeterminism of the real system is made explicit as parameters:
the uuid each simulated launch generates is a `String` argument, and the
completion signals delivered while the workflow is suspended are a
`List CompletionSignal` argument.
-/

namespace FargateTesting

/-- Embeds `FargateSandboxConfig` from fargate_activities.py. -/
structure FargateSandboxConfig where
  cluster : String
  task_definition : String
  subnets : List String
  assign_public_ip : Bool
deriving DecidableEq

/-- Embeds the `SandboxStatus` enum from fargate_activities.py. -/
inductive SandboxStatus where
  | PENDING
  | RUNNING
  | COMPLETED
  | FAILED
deriving DecidableEq

/-- Embeds `SandboxResult` from fargate_activities.py. -/
structure SandboxResult where
  sandbox_id : String
  status : SandboxStatus
  result_payload : Option String
deriving DecidableEq

/-- Embeds `LongRunningSandboxInput` from fargate_activities.py. -/
structure LongRunningSandboxInput where
  config : FargateSandboxConfig
  poll_interval_seconds : Int
  max_polls : Int
deriving DecidableEq

/-- Embeds `FireAndForgetSandboxInput` from fargate_activities.py. -/
structure FireAndForgetSandboxInput where
  config : FargateSandboxConfig
deriving DecidableEq

/-- Embeds `FireAndForgetSandboxOutput` from fargate_activities.py. -/
structure FireAndForgetSandboxOutput where
  sandbox_id : String
deriving DecidableEq

/-- One heartbeat emitted by `activity.heartbeat(\x7b"sandbox_id": ..., "poll_number": ...\x7d)`
inside `start_sandbox_and_poll`. -/
structure HeartbeatPulse where
  sandbox_id : String
  poll_number : Int
deriving DecidableEq

/-- Embeds Python `range(1, max_polls + 1)`: the list 1, 2, ..., max_polls
(empty when `max_polls <= 0`, exactly as Python's `range`). -/
def pollNumbers (max_polls : Int) : List Int :=
  (List.range max_polls.toNat).map (fun (i : Nat) => (i : Int) + 1)

/-- Embeds the activity `start_sandbox_and_poll` from fargate_activities.py.
The simulated uuid is a parameter; the returned pair is (the heartbeat pulses
emitted by the loop, in order) and (the returned `SandboxResult`). -/
def start_sandbox_and_poll (input : LongRunningSandboxInput) (uuid : String) :
    List HeartbeatPulse × SandboxResult :=
  let sandbox_id := "sandbox-" ++ uuid
  ((pollNumbers input.max_polls).map (fun n => ⟨sandbox_id, n⟩),
   ⟨sandbox_id, SandboxStatus.COMPLETED, some "Simulated sandbox result after polling."⟩)

/-- Embeds the activity `start_sandbox_fire_and_forget` from
fargate_activities.py; the simulated uuid is a parameter. -/
def start_sandbox_fire_and_forget (input : FireAndForgetSandboxInput)
    (uuid : String) : FireAndForgetSandboxOutput :=
  ⟨"sandbox-" ++ uuid⟩

/-- Embeds `FargateSandboxWorkflowInput` from fargate_workflow.py. -/
structure FargateSandboxWorkflowInput where
  run_label : String
  cluster : String
  task_definition : String
  subnets : List String
  polling_interval_seconds : Int
  max_polls : Int
deriving DecidableEq

/-- Embeds `FargateSandboxWorkflowOutput` from fargate_workflow.py. -/
structure FargateSandboxWorkflowOutput where
  polling_pattern_result : SandboxResult
  signal_pattern_result : SandboxResult
deriving DecidableEq

/-- Embeds `FargateSandboxWorkflow.__init__`: the `_async_sandbox_result`
slot starts out as `None`. -/
def init_async_sandbox_result : Option SandboxResult := none

/-- Arguments of one invocation of the `sandbox_completed` signal. -/
structure CompletionSignal where
  sandbox_id : String
  status : SandboxStatus
  result_payload : Option String
deriving DecidableEq

/-- Embeds the signal handler `FargateSandboxWorkflow.sandbox_completed`:
given the current `_async_sandbox_result` slot it returns the new slot value,
unconditionally overwriting it with a `SandboxResult` built from the
arguments. -/
def sandbox_completed (slot : Option SandboxResult) (sandbox_id : String)
    (status : SandboxStatus) (result_payload : Option String) :
    Option SandboxResult :=
  some ⟨sandbox_id, status, result_payload⟩

/-- Deliver one `CompletionSignal` to the workflow instance state. -/
def applySignal (slot : Option SandboxResult) (s : CompletionSignal) :
    Option SandboxResult :=
  sandbox_completed slot s.sandbox_id s.status s.result_payload

/-- Embeds the query `FargateSandboxWorkflow.async_sandbox_status`. -/
def async_sandbox_status (slot : Option SandboxResult) : Option SandboxResult :=
  slot

/-- Embeds the closure `_signal_received_for_expected_sandbox` inside
`FargateSandboxWorkflow.run`: the wait predicate passed to
`workflow.wait_condition`. -/
def signal_received_for_expected_sandbox (slot : Option SandboxResult)
    (awaited_sandbox_id : String) : Bool :=
  match slot with
  | none => false
  | some r => r.sandbox_id == awaited_sandbox_id

/-- Embeds `workflow.wait_condition(_signal_received_for_expected_sandbox)`:
signals are delivered one at a time and the predicate is re-evaluated before
each delivery and after the last; `some slot` is the slot value at the first
moment the predicate holds, `none` means the workflow is still suspended
after every listed signal has been delivered. -/
def awaitCondition (awaited_sandbox_id : String) :
    Option SandboxResult → List CompletionSignal → Option (Option SandboxResult)
  | slot, [] =>
      if signal_received_for_expected_sandbox slot awaited_sandbox_id then
        some slot
      else none
  | slot, s :: rest =>
      if signal_received_for_expected_sandbox slot awaited_sandbox_id then
        some slot
      else awaitCondition awaited_sandbox_id (applySignal slot s) rest

/-- Failure modes of the workflow body. `internalConsistency` embeds the
`raise RuntimeError("Signal-based sandbox result was not set ...")` branch. -/
inductive WorkflowError where
  | internalConsistency
deriving DecidableEq

/-- Embeds the tail of `FargateSandboxWorkflow.run` after `wait_condition`
returns: `signal_result = self._async_sandbox_result`; if it is `None` the
defensive `RuntimeError` branch is taken, otherwise the two pattern results
are combined into the output. -/
def finishAfterWait (slot : Option SandboxResult)
    (polling_result : SandboxResult) :
    Except WorkflowError FargateSandboxWorkflowOutput :=
  match slot with
  | none => Except.error WorkflowError.internalConsistency
  | some signal_result => Except.ok ⟨polling_result, signal_result⟩

/-- Embeds the construction of the shared `FargateSandboxConfig` at the top
of `FargateSandboxWorkflow.run` (note `assign_public_ip=False`). -/
def configOf (input : FargateSandboxWorkflowInput) : FargateSandboxConfig :=
  ⟨input.cluster, input.task_definition, input.subnets, false⟩

/-- Embeds `FargateSandboxWorkflow.run`. `poll_uuid` and `faf_uuid` are the
uuids generated by the two activity executions; `sigs` are the
`sandbox_completed` signals delivered while the workflow is suspended.
Result `none` means the run is still suspended in `wait_condition`. -/
def FargateSandboxWorkflow.run (input : FargateSandboxWorkflowInput)
    (poll_uuid faf_uuid : String) (sigs : List CompletionSignal) :
    Option (Except WorkflowError FargateSandboxWorkflowOutput) :=
  let config := configOf input
  let polling_result :=
    (start_sandbox_and_poll
      ⟨config, input.polling_interval_seconds, input.max_polls⟩ poll_uuid).2
  let awaited_sandbox_id :=
    (start_sandbox_fire_and_forget ⟨config⟩ faf_uuid).sandbox_id
  match awaitCondition awaited_sandbox_id init_async_sandbox_result sigs with
  | none => none
  | some slot => some (finishAfterWait slot polling_result)

/-- Modelled from the spec: the durable-execution substrate's retry
classification is not part of this repository's source; per the spec's error
taxonomy an internal consistency error is fatal and never retried. -/
def retriedBySubstrate : WorkflowError → Bool
  | WorkflowError.internalConsistency => false

/-- Terminal statuses per the spec's data model: COMPLETED and FAILED. -/
def SandboxStatus.isTerminal : SandboxStatus → Bool
  | SandboxStatus.COMPLETED => true
  | SandboxStatus.FAILED => true
  | SandboxStatus.PENDING => false
  | SandboxStatus.RUNNING => false

/-- Equivalence of sandbox results up to the freshly generated identifier:
same status and same payload. -/
def resultEquiv (a b : SandboxResult) : Prop :=
  a.status = b.status ∧ a.result_payload = b.result_payload

/-- Embeds the environment of the Fargate sandbox task: a partial map from
variable names to values (`none` = unset, `some ""` = set but empty). -/
def Env : Type := String → Option String

/-- Embeds the constant `TEMPORAL_TARGET_ENV` from fargate_task.py. -/
def TEMPORAL_TARGET_ENV : String := "TEMPORAL_TARGET_HOSTPORT"

/-- Embeds the constant `TEMPORAL_NAMESPACE_ENV` from fargate_task.py. -/
def TEMPORAL_NAMESPACE_ENV : String := "TEMPORAL_NAMESPACE"

/-- Embeds the constant `TEMPORAL_WORKFLOW_ID_ENV` from fargate_task.py. -/
def TEMPORAL_WORKFLOW_ID_ENV : String := "TEMPORAL_WORKFLOW_ID"

/-- Embeds the constant `TEMPORAL_WORKFLOW_RUN_ID_ENV` from fargate_task.py. -/
def TEMPORAL_WORKFLOW_RUN_ID_ENV : String := "TEMPORAL_WORKFLOW_RUN_ID"

/-- Embeds the constant `FARGATE_SANDBOX_ID_ENV` from fargate_task.py. -/
def FARGATE_SANDBOX_ID_ENV : String := "FARGATE_SANDBOX_ID"

/-- Embeds the constant `DEFAULT_TEMPORAL_TARGET` from fargate_task.py. -/
def DEFAULT_TEMPORAL_TARGET : String := "localhost:7233"

/-- Embeds the constant `DEFAULT_TEMPORAL_NAMESPACE` from fargate_task.py. -/
def DEFAULT_TEMPORAL_NAMESPACE : String := "default"

/-- Embeds the constant `SANDBOX_COMPLETED_SIGNAL_NAME` from fargate_task.py. -/
def SANDBOX_COMPLETED_SIGNAL_NAME : String := "sandbox_completed"

/-- Embeds Python `os.getenv(name, default)`. -/
def getenv (env : Env) (name default : String) : String :=
  match env name with
  | none => default
  | some v => v

/-- Embeds `_require_env` from fargate_task.py: Python's `if not value`
treats both an unset variable and an empty string as missing. -/
def require_env (env : Env) (name : String) : Except String String :=
  match env name with
  | none => Except.error ("Missing required environment variable: " ++ name)
  | some v =>
      if v = "" then
        Except.error ("Missing required environment variable: " ++ name)
      else Except.ok v

/-- Embeds `run_coding_agent` from fargate_task.py (the simulated agent
workload returns this summary string). -/
def run_coding_agent (sandbox_id : String) : String :=
  "Coding agent completed successfully in sandbox " ++ sandbox_id

/-- Externally visible effects performed by the sandbox task's `main`, in
program order: running the agent workload, connecting to Temporal, and
sending the `sandbox_completed` signal. -/
inductive TaskEffect where
  | runAgent (sandbox_id : String)
  | connect (target : String) (ns : String)
  | sendSignal (workflow_id : String) (run_id : Option String)
      (signal_name : String) (sandbox_id : String) (status : SandboxStatus)
      (result_payload : String)
deriving DecidableEq

/-- Embeds `main` from fargate_task.py as the ordered list of external
effects it performs, or the configuration error it raises first. An
`Except.error` return means the task raised before performing any of the
listed effects. -/
def fargate_task_main (env : Env) : Except String (List TaskEffect) := do
  let temporal_target := getenv env TEMPORAL_TARGET_ENV DEFAULT_TEMPORAL_TARGET
  let temporal_namespace :=
    getenv env TEMPORAL_NAMESPACE_ENV DEFAULT_TEMPORAL_NAMESPACE
  let workflow_id ← require_env env TEMPORAL_WORKFLOW_ID_ENV
  let workflow_run_id :=
    match env TEMPORAL_WORKFLOW_RUN_ID_ENV with
    | none => none
    | some v => if v = "" then none else some v
  let sandbox_id ← require_env env FARGATE_SANDBOX_ID_ENV
  let result_payload := run_coding_agent sandbox_id
  pure [TaskEffect.runAgent sandbox_id,
    TaskEffect.connect temporal_target temporal_namespace,
    TaskEffect.sendSignal workflow_id workflow_run_id
      SANDBOX_COMPLETED_SIGNAL_NAME sandbox_id SandboxStatus.COMPLETED
      result_payload]

/-- Concrete workflow input used by the closed witness statements. -/
def sampleInput : FargateSandboxWorkflowInput :=
  ⟨"example-run", "example-cluster", "coding-agent-task-definition",
   ["subnet-123456"], 0, 3⟩

/-! Helper lemmas about the wait predicate and the suspension loop. -/

/-- The wait predicate holds exactly when the slot is non-empty and its
sandbox identifier equals the awaited one. -/
lemma signal_received_iff (slot : Option SandboxResult) (a : String) :
    signal_received_for_expected_sandbox slot a = true ↔
      ∃ r, slot = some r ∧ r.sandbox_id = a := by
  cases slot with
  | none => simp [signal_received_for_expected_sandbox]
  | some r => simp [signal_received_for_expected_sandbox]

/-- If the suspension releases, the released slot is non-empty and matches
the awaited identifier. -/
lemma awaitCondition_some (a : String) :
    ∀ (sigs : List CompletionSignal) (slot s : Option SandboxResult),
      awaitCondition a slot sigs = some s →
      ∃ r, s = some r ∧ r.sandbox_id = a := by
  intro sigs
  induction sigs with
  | nil =>
      intro slot s h
      simp only [awaitCondition] at h
      split at h
      · next hp =>
          cases h
          exact (signal_received_iff slot a).mp hp
      · cases h
  | cons sig rest ih =>
      intro slot s h
      simp only [awaitCondition] at h
      split at h
      · next hp =>
          cases h
          exact (signal_received_iff slot a).mp hp
      · exact ih (applySignal slot sig) s h

/-- If no delivered signal carries the awaited identifier (and the slot does
not already match), the workflow remains suspended. -/
lemma awaitCondition_none (a : String) :
    ∀ (sigs : List CompletionSignal) (slot : Option SandboxResult),
      signal_received_for_expected_sandbox slot a = false →
      (∀ s ∈ sigs, s.sandbox_id ≠ a) →
      awaitCondition a slot sigs = none := by
  intro sigs
  induction sigs with
  | nil =>
      intro slot hslot _
      simp [awaitCondition, hslot]
  | cons sig rest ih =>
      intro slot hslot hsigs
      have hsig : sig.sandbox_id ≠ a := hsigs sig (List.mem_cons_self sig rest)
      simp only [awaitCondition, hslot]
      rw [if_neg (by simp [hslot])]
      refine ih (applySignal slot sig) ?_ ?_
      · simp [applySignal, sandbox_completed, signal_received_for_expected_sandbox, hsig]
      · intro s hs
        exact hsigs s (List.mem_cons_of_mem sig hs)

/-- When the suspension releases, the released slot is either the slot it
started from (predicate already true) or was written by one of the
delivered signals carrying the awaited identifier. -/
lemma awaitCondition_from_signal (a : String) :
    ∀ (sigs : List CompletionSignal) (slot s : Option SandboxResult),
      awaitCondition a slot sigs = some s →
      (signal_received_for_expected_sandbox slot a = true ∧ s = slot) ∨
      ∃ sig ∈ sigs, sig.sandbox_id = a ∧
        s = some ⟨sig.sandbox_id, sig.status, sig.result_payload⟩ := by
  intro sigs
  induction sigs with
  | nil =>
      intro slot s h
      simp only [awaitCondition] at h
      split at h
      · next hp => cases h; exact Or.inl ⟨hp, rfl⟩
      · cases h
  | cons sig rest ih =>
      intro slot s h
      simp only [awaitCondition] at h
      split at h
      · next hp => cases h; exact Or.inl ⟨hp, rfl⟩
      · rcases ih (applySignal slot sig) s h with ⟨hp, rfl⟩ | ⟨sig', hmem, hid, rfl⟩
        · refine Or.inr ⟨sig, List.mem_cons_self sig rest, ?_, rfl⟩
          rcases (signal_received_iff _ a).mp hp with ⟨r, hr, hrid⟩
          simp only [applySignal, sandbox_completed, Option.some.injEq] at hr
          rw [← hr] at hrid
          exact hrid
        · exact Or.inr ⟨sig', List.mem_cons_of_mem sig hmem, hid, rfl⟩

/-- Concrete long-running activity input used by closed witness statements. -/
def samplePollInput : LongRunningSandboxInput :=
  ⟨⟨"example-cluster", "coding-agent-task-definition", ["subnet-123456"], false⟩,
   0, 2⟩

/-- Concrete long-running activity input with a negative poll budget, used
by closed witness statements. -/
def sampleNegPollInput : LongRunningSandboxInput :=
  ⟨⟨"example-cluster", "coding-agent-task-definition", ["subnet-123456"], false⟩,
   0, -1⟩

/-- C1: the wait predicate holds only when the pending-completion slot is
non-empty and its sandbox_id equals the identifier returned by the
non-blocking launch, so after any sequence of sandbox_completed invocations
none of which uses the awaited identifier, the workflow remains suspended. -/
theorem run_stays_suspended_without_awaited_id
    (input : FargateSandboxWorkflowInput) (poll_uuid faf_uuid : String)
    (sigs : List CompletionSignal)
    (h : ∀ s ∈ sigs, s.sandbox_id ≠
      (start_sandbox_fire_and_forget ⟨configOf input⟩ faf_uuid).sandbox_id) :
    FargateSandboxWorkflow.run input poll_uuid faf_uuid sigs = none ∧
    ∀ slot : Option SandboxResult,
      signal_received_for_expected_sandbox slot
          ((start_sandbox_fire_and_forget ⟨configOf input⟩ faf_uuid).sandbox_id)
        = true ↔
      ∃ r, slot = some r ∧ r.sandbox_id =
        (start_sandbox_fire_and_forget ⟨configOf input⟩ faf_uuid).sandbox_id := by
  constructor
  · have hA := awaitCondition_none
      ((start_sandbox_fire_and_forget ⟨configOf input⟩ faf_uuid).sandbox_id)
      sigs init_async_sandbox_result rfl h
    simp only [FargateSandboxWorkflow.run, hA]
  · intro slot
    exact signal_received_iff slot _

/-- Closed witness for C1: a single completion report with a different
identifier leaves the run suspended. -/
theorem run_stays_suspended_without_awaited_id_witness :
    (∀ s ∈ [(⟨"sandbox-other", SandboxStatus.COMPLETED, none⟩ : CompletionSignal)],
      s.sandbox_id ≠
        (start_sandbox_fire_and_forget ⟨configOf sampleInput⟩ "abc").sandbox_id) ∧
    FargateSandboxWorkflow.run sampleInput "u1" "abc"
      [⟨"sandbox-other", SandboxStatus.COMPLETED, none⟩] = none :=
  ⟨by decide,
   (run_stays_suspended_without_awaited_id sampleInput "u1" "abc"
     [⟨"sandbox-other", SandboxStatus.COMPLETED, none⟩] (by decide)).1⟩

/-- C2: for every max_polls = n >= 0 the blocking activity emits exactly n
heartbeat pulses, the i-th (1-based, ascending) tagged with the launched
sandbox identifier and poll number i, and returns a COMPLETED result. -/
theorem start_sandbox_and_poll_pulses (input : LongRunningSandboxInput)
    (uuid : String) (n : Nat) (h : input.max_polls = (n : Int)) :
    (start_sandbox_and_poll input uuid).1 =
      (List.range n).map
        (fun (i : Nat) => (⟨"sandbox-" ++ uuid, (i : Int) + 1⟩ : HeartbeatPulse)) ∧
    (start_sandbox_and_poll input uuid).1.length = n ∧
    (start_sandbox_and_poll input uuid).2.status = SandboxStatus.COMPLETED := by
  have h1 : (start_sandbox_and_poll input uuid).1 =
      (List.range n).map
        (fun (i : Nat) => (⟨"sandbox-" ++ uuid, (i : Int) + 1⟩ : HeartbeatPulse)) := by
    show ((List.range input.max_polls.toNat).map
          (fun (i : Nat) => (i : Int) + 1)).map
        (fun m => (⟨"sandbox-" ++ uuid, m⟩ : HeartbeatPulse)) =
      (List.range n).map
        (fun (i : Nat) => (⟨"sandbox-" ++ uuid, (i : Int) + 1⟩ : HeartbeatPulse))
    rw [h, Int.toNat_ofNat, List.map_map]
    rfl
  refine ⟨h1, ?_, rfl⟩
  rw [h1, List.length_map, List.length_range]

/-- Closed witness for C2 at max_polls = 2. -/
theorem start_sandbox_and_poll_pulses_witness :
    samplePollInput.max_polls = ((2 : Nat) : Int) ∧
    ((start_sandbox_and_poll samplePollInput "uid").1 =
        (List.range 2).map
          (fun (i : Nat) => (⟨"sandbox-" ++ "uid", (i : Int) + 1⟩ : HeartbeatPulse)) ∧
      (start_sandbox_and_poll samplePollInput "uid").1.length = 2 ∧
      (start_sandbox_and_poll samplePollInput "uid").2.status
        = SandboxStatus.COMPLETED) :=
  ⟨rfl, start_sandbox_and_poll_pulses samplePollInput "uid" 2 rfl⟩

/-- C10: for every negative max_polls the blocking activity still terminates
normally, emits zero pulses, and returns a COMPLETED result with a non-empty
sandbox identifier. -/
theorem start_sandbox_and_poll_total_negative (input : LongRunningSandboxInput)
    (uuid : String) (h : input.max_polls < 0) :
    (start_sandbox_and_poll input uuid).1 = [] ∧
    (start_sandbox_and_poll input uuid).2.status = SandboxStatus.COMPLETED ∧
    (start_sandbox_and_poll input uuid).2.sandbox_id ≠ "" := by
  refine ⟨?_, rfl, ?_⟩
  · have hz : input.max_polls.toNat = 0 := Int.toNat_of_nonpos (le_of_lt h)
    simp [start_sandbox_and_poll, pollNumbers, hz]
  · show "sandbox-" ++ uuid ≠ ""
    intro hc
    have hl := congrArg String.length hc
    rw [String.length_append] at hl
    have h8 : "sandbox-".length = 8 := rfl
    have h0 : "".length = 0 := rfl
    rw [h8, h0] at hl
    omega

/-- Closed witness for C10 at max_polls = -1. -/
theorem start_sandbox_and_poll_total_negative_witness :
    sampleNegPollInput.max_polls < 0 ∧
    ((start_sandbox_and_poll sampleNegPollInput "uid").1 = [] ∧
      (start_sandbox_and_poll sampleNegPollInput "uid").2.status
        = SandboxStatus.COMPLETED ∧
      (start_sandbox_and_poll sampleNegPollInput "uid").2.sandbox_id ≠ "") :=
  ⟨by decide, start_sandbox_and_poll_total_negative sampleNegPollInput "uid" (by decide)⟩

/-- C3: a completed run's single return value pairs the blocking-pattern
result from step 1 with the correlated SandboxResult from the
pending-completion slot, and the non-blocking-pattern result's sandbox
identifier equals the identifier returned by the non-blocking launcher
call. -/
theorem run_output_pairs_results (input : FargateSandboxWorkflowInput)
    (poll_uuid faf_uuid : String) (sigs : List CompletionSignal)
    (out : FargateSandboxWorkflowOutput)
    (h : FargateSandboxWorkflow.run input poll_uuid faf_uuid sigs
      = some (Except.ok out)) :
    out.polling_pattern_result =
      (start_sandbox_and_poll
        ⟨configOf input, input.polling_interval_seconds, input.max_polls⟩
        poll_uuid).2 ∧
    out.signal_pattern_result.sandbox_id =
      (start_sandbox_fire_and_forget ⟨configOf input⟩ faf_uuid).sandbox_id := by
  simp only [FargateSandboxWorkflow.run] at h
  cases hA : awaitCondition
      ((start_sandbox_fire_and_forget ⟨configOf input⟩ faf_uuid).sandbox_id)
      init_async_sandbox_result sigs with
  | none => rw [hA] at h; cases h
  | some slot =>
      obtain ⟨r, rfl, hrid⟩ := awaitCondition_some _ sigs _ slot hA
      rw [hA] at h
      simp only [finishAfterWait, Option.some.injEq, Except.ok.injEq] at h
      subst h
      exact ⟨rfl, hrid⟩

/-- Closed witness for C3. -/
theorem run_output_pairs_results_witness :
    FargateSandboxWorkflow.run sampleInput "p" "sig"
        [⟨"sandbox-sig", SandboxStatus.COMPLETED, some "signal-result"⟩]
      = some (Except.ok
          ⟨⟨"sandbox-p", SandboxStatus.COMPLETED,
            some "Simulated sandbox result after polling."⟩,
           ⟨"sandbox-sig", SandboxStatus.COMPLETED, some "signal-result"⟩⟩) ∧
    ((⟨⟨"sandbox-p", SandboxStatus.COMPLETED,
        some "Simulated sandbox result after polling."⟩,
       ⟨"sandbox-sig", SandboxStatus.COMPLETED, some "signal-result"⟩⟩ :
        FargateSandboxWorkflowOutput).polling_pattern_result =
      (start_sandbox_and_poll
        ⟨configOf sampleInput, sampleInput.polling_interval_seconds,
         sampleInput.max_polls⟩ "p").2 ∧
     (⟨⟨"sandbox-p", SandboxStatus.COMPLETED,
        some "Simulated sandbox result after polling."⟩,
       ⟨"sandbox-sig", SandboxStatus.COMPLETED, some "signal-result"⟩⟩ :
        FargateSandboxWorkflowOutput).signal_pattern_result.sandbox_id =
      (start_sandbox_fire_and_forget ⟨configOf sampleInput⟩ "sig").sandbox_id) :=
  ⟨rfl, run_output_pairs_results sampleInput "p" "sig"
    [⟨"sandbox-sig", SandboxStatus.COMPLETED, some "signal-result"⟩] _ rfl⟩

/-- C4: every invocation of sandbox_completed overwrites the
pending-completion slot with a SandboxResult built exactly from its
arguments, regardless of the previous slot contents and with no validation
of the identifier; the read-only query returns exactly this value, or none
when no report has arrived. -/
theorem sandbox_completed_overwrites_and_query
    (slot : Option SandboxResult) (sandbox_id : String)
    (status : SandboxStatus) (result_payload : Option String) :
    sandbox_completed slot sandbox_id status result_payload
      = some ⟨sandbox_id, status, result_payload⟩ ∧
    async_sandbox_status (sandbox_completed slot sandbox_id status result_payload)
      = some ⟨sandbox_id, status, result_payload⟩ ∧
    async_sandbox_status init_async_sandbox_result = none :=
  ⟨rfl, rfl, rfl⟩

/-- C5 counterexample: in a single run that consumes two completion reports
(the first for a different identifier, the second for the awaited one) both
report-arrivals write the pending-completion slot, each changing its value,
so the slot is written more than once between run start and run end. -/
theorem pending_completion_written_twice :
    awaitCondition "sandbox-sig" init_async_sandbox_result
        [⟨"sandbox-other", SandboxStatus.COMPLETED, none⟩,
         ⟨"sandbox-sig", SandboxStatus.COMPLETED, some "signal-result"⟩]
      = some (some ⟨"sandbox-sig", SandboxStatus.COMPLETED,
          some "signal-result"⟩) ∧
    applySignal init_async_sandbox_result
        ⟨"sandbox-other", SandboxStatus.COMPLETED, none⟩
      = some ⟨"sandbox-other", SandboxStatus.COMPLETED, none⟩ ∧
    applySignal (some ⟨"sandbox-other", SandboxStatus.COMPLETED, none⟩)
        ⟨"sandbox-sig", SandboxStatus.COMPLETED, some "signal-result"⟩
      = some ⟨"sandbox-sig", SandboxStatus.COMPLETED, some "signal-result"⟩ ∧
    (some (⟨"sandbox-other", SandboxStatus.COMPLETED, none⟩ : SandboxResult)
      ≠ init_async_sandbox_result) ∧
    (some (⟨"sandbox-sig", SandboxStatus.COMPLETED,
        some "signal-result"⟩ : SandboxResult)
      ≠ some (⟨"sandbox-other", SandboxStatus.COMPLETED, none⟩ : SandboxResult)) :=
  ⟨rfl, rfl, rfl, by decide, by decide⟩

/-- C5 amended: the pending-completion slot is empty at run start, and every
sandbox_completed invocation writes the slot (an unconditional overwrite
with a SandboxResult built from its arguments), so a run may observe any
number of writes, not at most one. -/
theorem pending_completion_lifecycle :
    init_async_sandbox_result = none ∧
    ∀ (slot : Option SandboxResult) (sig : CompletionSignal),
      applySignal slot sig
        = some ⟨sig.sandbox_id, sig.status, sig.result_payload⟩ :=
  ⟨rfl, fun _ _ => rfl⟩

/-- C6 counterexample: a completion report with the awaited identifier but
transient status PENDING releases the wait, and the run's output carries
that non-terminal status in its non-blocking-pattern result. -/
theorem run_output_nonterminal_status :
    FargateSandboxWorkflow.run sampleInput "p" "sig"
        [⟨"sandbox-sig", SandboxStatus.PENDING, none⟩]
      = some (Except.ok
          ⟨⟨"sandbox-p", SandboxStatus.COMPLETED,
            some "Simulated sandbox result after polling."⟩,
           ⟨"sandbox-sig", SandboxStatus.PENDING, none⟩⟩) ∧
    SandboxStatus.isTerminal SandboxStatus.PENDING = false :=
  ⟨rfl, rfl⟩

/-- C6 amended: the non-blocking-pattern result delivered in the run's
output is exactly the SandboxResult written by one delivered report carrying
the awaited identifier; its status is that report's status (the wait
predicate does not check status), so it is terminal exactly when the
releasing report's status is terminal. -/
theorem run_signal_result_carries_report_status
    (input : FargateSandboxWorkflowInput) (poll_uuid faf_uuid : String)
    (sigs : List CompletionSignal) (out : FargateSandboxWorkflowOutput)
    (h : FargateSandboxWorkflow.run input poll_uuid faf_uuid sigs
      = some (Except.ok out)) :
    ∃ sig ∈ sigs,
      sig.sandbox_id =
        (start_sandbox_fire_and_forget ⟨configOf input⟩ faf_uuid).sandbox_id ∧
      out.signal_pattern_result
        = ⟨sig.sandbox_id, sig.status, sig.result_payload⟩ ∧
      out.signal_pattern_result.status.isTerminal = sig.status.isTerminal := by
  simp only [FargateSandboxWorkflow.run] at h
  cases hA : awaitCondition
      ((start_sandbox_fire_and_forget ⟨configOf input⟩ faf_uuid).sandbox_id)
      init_async_sandbox_result sigs with
  | none => rw [hA] at h; cases h
  | some slot =>
      rw [hA] at h
      rcases awaitCondition_from_signal _ sigs _ slot hA with ⟨hp, _⟩ | hsig
      · cases hp
      · obtain ⟨sig, hmem, hid, rfl⟩ := hsig
        simp only [finishAfterWait, Option.some.injEq, Except.ok.injEq] at h
        subst h
        exact ⟨sig, hmem, hid, rfl, rfl⟩

/-- Closed witness for the amended C6. -/
theorem run_signal_result_carries_report_status_witness :
    FargateSandboxWorkflow.run sampleInput "p" "sig"
        [⟨"sandbox-sig", SandboxStatus.PENDING, none⟩]
      = some (Except.ok
          ⟨⟨"sandbox-p", SandboxStatus.COMPLETED,
            some "Simulated sandbox result after polling."⟩,
           ⟨"sandbox-sig", SandboxStatus.PENDING, none⟩⟩) ∧
    ∃ sig ∈ [(⟨"sandbox-sig", SandboxStatus.PENDING, none⟩ : CompletionSignal)],
      sig.sandbox_id =
        (start_sandbox_fire_and_forget ⟨configOf sampleInput⟩ "sig").sandbox_id ∧
      (⟨⟨"sandbox-p", SandboxStatus.COMPLETED,
          some "Simulated sandbox result after polling."⟩,
         ⟨"sandbox-sig", SandboxStatus.PENDING, none⟩⟩ :
          FargateSandboxWorkflowOutput).signal_pattern_result
        = ⟨sig.sandbox_id, sig.status, sig.result_payload⟩ ∧
      (⟨⟨"sandbox-p", SandboxStatus.COMPLETED,
          some "Simulated sandbox result after polling."⟩,
         ⟨"sandbox-sig", SandboxStatus.PENDING, none⟩⟩ :
          FargateSandboxWorkflowOutput).signal_pattern_result.status.isTerminal
        = sig.status.isTerminal :=
  ⟨rfl, run_signal_result_carries_report_status sampleInput "p" "sig"
    [⟨"sandbox-sig", SandboxStatus.PENDING, none⟩] _ rfl⟩

/-- Appending to the fixed "sandbox-" literal is injective, so pulses from
two attempts with distinct uuids carry distinct sandbox identifiers. -/
lemma sandbox_id_inj (u1 u2 : String)
    (h : "sandbox-" ++ u1 = "sandbox-" ++ u2) : u1 = u2 := by
  have hd := congrArg String.data h
  rw [String.data_append, String.data_append] at hd
  exact String.ext (List.append_cancel_left hd)

/-- Every pulse emitted by an execution of the blocking activity is tagged
with that execution's own sandbox identifier. -/
lemma mem_pulses_sandbox_id (input : LongRunningSandboxInput) (u : String)
    (p : HeartbeatPulse) (hp : p ∈ (start_sandbox_and_poll input u).1) :
    p.sandbox_id = "sandbox-" ++ u := by
  simp only [start_sandbox_and_poll, List.mem_map] at hp
  obtain ⟨m, _, rfl⟩ := hp
  rfl

/-- C7: re-executing the blocking activity with the same input after a
simulated crash-and-restart (the aborted attempt having emitted its first k
pulses) produces an equivalent terminal SandboxResult, and the new attempt's
pulse count is exactly its own poll budget — none of the aborted attempt's
pulses are counted into (or even appear among) the new attempt's pulses. -/
theorem start_sandbox_and_poll_idempotent (input : LongRunningSandboxInput)
    (u1 u2 : String) (k : Nat) (h : u1 ≠ u2) :
    resultEquiv (start_sandbox_and_poll input u1).2
      (start_sandbox_and_poll input u2).2 ∧
    (start_sandbox_and_poll input u2).2.status.isTerminal = true ∧
    (start_sandbox_and_poll input u2).1.length = input.max_polls.toNat ∧
    ∀ p ∈ (start_sandbox_and_poll input u1).1.take k,
      p ∉ (start_sandbox_and_poll input u2).1 := by
  refine ⟨⟨rfl, rfl⟩, rfl, ?_, ?_⟩
  · show ((pollNumbers input.max_polls).map _).length = input.max_polls.toNat
    rw [List.length_map]
    simp [pollNumbers]
  · intro p hpk hp2
    have h1 := mem_pulses_sandbox_id input u1 p (List.mem_of_mem_take hpk)
    have h2 := mem_pulses_sandbox_id input u2 p hp2
    rw [h1] at h2
    exact h (sandbox_id_inj u1 u2 h2)

/-- Closed witness for C7: restart after one pulse of the aborted attempt. -/
theorem start_sandbox_and_poll_idempotent_witness :
    ("attempt1" ≠ "attempt2") ∧
    (resultEquiv (start_sandbox_and_poll samplePollInput "attempt1").2
        (start_sandbox_and_poll samplePollInput "attempt2").2 ∧
      (start_sandbox_and_poll samplePollInput "attempt2").2.status.isTerminal
        = true ∧
      (start_sandbox_and_poll samplePollInput "attempt2").1.length
        = samplePollInput.max_polls.toNat ∧
      ∀ p ∈ (start_sandbox_and_poll samplePollInput "attempt1").1.take 1,
        p ∉ (start_sandbox_and_poll samplePollInput "attempt2").1) :=
  ⟨by decide,
   start_sandbox_and_poll_idempotent samplePollInput "attempt1" "attempt2" 1
     (by decide)⟩

/-- C8: once the suspension predicate has held, the pending-completion slot
is non-empty, so the empty-slot branch after the wait is unreachable and the
run never ends with the internal-consistency error; were that branch taken
(slot empty after the wait) it would produce the internal-consistency
error, which the substrate classifies as fatal and never retries. -/
theorem internal_consistency_branch_unreachable
    (input : FargateSandboxWorkflowInput) (poll_uuid faf_uuid : String)
    (sigs : List CompletionSignal) (slot : Option SandboxResult)
    (h : awaitCondition
        ((start_sandbox_fire_and_forget ⟨configOf input⟩ faf_uuid).sandbox_id)
        init_async_sandbox_result sigs = some slot) :
    slot ≠ none ∧
    FargateSandboxWorkflow.run input poll_uuid faf_uuid sigs ≠
      some (Except.error WorkflowError.internalConsistency) ∧
    (∀ pr, finishAfterWait none pr
      = Except.error WorkflowError.internalConsistency) ∧
    retriedBySubstrate WorkflowError.internalConsistency = false := by
  obtain ⟨r, rfl, _⟩ := awaitCondition_some _ sigs _ slot h
  refine ⟨by simp, ?_, fun pr => rfl, rfl⟩
  simp only [FargateSandboxWorkflow.run, h]
  simp [finishAfterWait]

/-- Closed witness for C8. -/
theorem internal_consistency_branch_unreachable_witness :
    awaitCondition
        ((start_sandbox_fire_and_forget ⟨configOf sampleInput⟩ "sig").sandbox_id)
        init_async_sandbox_result
        [⟨"sandbox-sig", SandboxStatus.COMPLETED, some "signal-result"⟩]
      = some (some ⟨"sandbox-sig", SandboxStatus.COMPLETED,
          some "signal-result"⟩) ∧
    ((some (⟨"sandbox-sig", SandboxStatus.COMPLETED,
        some "signal-result"⟩ : SandboxResult) : Option SandboxResult) ≠ none ∧
      FargateSandboxWorkflow.run sampleInput "p" "sig"
          [⟨"sandbox-sig", SandboxStatus.COMPLETED, some "signal-result"⟩] ≠
        some (Except.error WorkflowError.internalConsistency) ∧
      (∀ pr, finishAfterWait none pr
        = Except.error WorkflowError.internalConsistency) ∧
      retriedBySubstrate WorkflowError.internalConsistency = false) :=
  ⟨rfl, internal_consistency_branch_unreachable sampleInput "p" "sig"
    [⟨"sandbox-sig", SandboxStatus.COMPLETED, some "signal-result"⟩] _ rfl⟩

/-- C9: if the workflow-identity or sandbox-identifier environment variable
is missing or empty at start, the sandbox task's main raises a configuration
error before performing any external effect: the agent workload never runs
and no completion report is sent. -/
theorem fargate_task_main_config_error (env : Env)
    (h : env TEMPORAL_WORKFLOW_ID_ENV = none ∨
         env TEMPORAL_WORKFLOW_ID_ENV = some "" ∨
         env FARGATE_SANDBOX_ID_ENV = none ∨
         env FARGATE_SANDBOX_ID_ENV = some "") :
    (∃ msg, fargate_task_main env = Except.error msg) ∧
    ∀ effects, fargate_task_main env ≠ Except.ok effects := by
  have herr : ∃ msg, fargate_task_main env = Except.error msg := by
    cases hw : require_env env TEMPORAL_WORKFLOW_ID_ENV with
    | error m =>
        refine ⟨m, ?_⟩
        simp only [fargate_task_main, hw]
        rfl
    | ok wid =>
        have hs : require_env env FARGATE_SANDBOX_ID_ENV
            = Except.error ("Missing required environment variable: "
                ++ FARGATE_SANDBOX_ID_ENV) := by
          rcases h with h1 | h1 | h1 | h1
          · rw [require_env, h1] at hw; cases hw
          · rw [require_env, h1] at hw; simp at hw
          · rw [require_env, h1]
          · rw [require_env, h1]; simp
        refine ⟨"Missing required environment variable: "
          ++ FARGATE_SANDBOX_ID_ENV, ?_⟩
        simp only [fargate_task_main, hw, hs]
        rfl
  refine ⟨herr, ?_⟩
  obtain ⟨m, hm⟩ := herr
  intro effects hok
  rw [hm] at hok
  cases hok

/-- Closed witness for C9: an entirely empty environment. -/
theorem fargate_task_main_config_error_witness :
    ((fun _ => none : Env) TEMPORAL_WORKFLOW_ID_ENV = none ∨
      (fun _ => none : Env) TEMPORAL_WORKFLOW_ID_ENV = some "" ∨
      (fun _ => none : Env) FARGATE_SANDBOX_ID_ENV = none ∨
      (fun _ => none : Env) FARGATE_SANDBOX_ID_ENV = some "") ∧
    ((∃ msg, fargate_task_main (fun _ => none) = Except.error msg) ∧
      ∀ effects, fargate_task_main (fun _ => none) ≠ Except.ok effects) :=
  ⟨Or.inl rfl, fargate_task_main_config_error (fun _ => none) (Or.inl rfl)⟩

end FargateTesting
